import Mathlib

/-!
# Verification of the v-connect server (`src/Server/app.js`)

A shallow embedding of the Express application in `src/Server/app.js`:
the in-memory document store stands for the MongoDB collections, route
handlers become state-passing Lean functions `DB → Req → DB × Resp`,
and the pieces of the repository that are only referenced from
`app.js` (the mongoose models, `./middleware`'s `isLoggedIn`, and the
passport-local-mongoose plumbing) are modelled from the specification,
as marked on each such definition.
-/

namespace VConnect

/-- A stored user record (the `User` mongoose model).  The credential
fields `pwHash` and `salt` are the secret material; `id` stands for the
Mongo `_id`.  Modelled from the spec: the `User` schema itself is in
`models/user.js`, which only `app.js` is available; the spec gives the
fields (first name, last name, campus identifier, unique username and
email, salted hash plus salt) and the route `app.post('/signup')`
shows the profile keys `firstname, lastname, username, email, campus1`. -/
structure UserRec where
  id : Nat
  firstname : Option String
  lastname : Option String
  username : String
  email : String
  campus1 : String
  pwHash : String
  salt : String
  deriving Repr, DecidableEq

/-- A project record (the `Project` model), as created by
`app.post('/makeproj')`: `{ name, desc, num, type, createdBy: userId }`.
The body fields may be absent (`undefined`), hence `Option String`;
`createdBy` holds the owner's user id. -/
structure ProjectRec where
  id : Nat
  name : Option String
  desc : Option String
  num : Option String
  ptype : Option String
  createdBy : Nat
  deriving Repr, DecidableEq

/-- A user-details record (the `userdetail` model), with exactly the
fields `app.post('/userpage')` reads from the request body:
`phone, instagram, twitter, linkedIn, github, fullName, email, campus,
skills, projects`.  `did` stands for the Mongo document `_id`. -/
structure UserDetailRec where
  did : Nat
  phone : Option String
  instagram : Option String
  twitter : Option String
  linkedIn : Option String
  github : Option String
  fullName : Option String
  email : Option String
  campus : Option String
  skills : Option String
  projects : Option String
  deriving Repr, DecidableEq

/-- A club record (the `Club` model), with the fields
`app.post('/clublisting')` stores: `clubName, type, description,
googleFormLink, posterImage` (the uploaded file's buffer). -/
structure ClubRec where
  clubName : Option String
  ctype : Option String
  description : Option String
  googleFormLink : Option String
  posterImage : Option String
  deriving Repr, DecidableEq

/-- The server-side state: the document collections plus the session
store (`express-session` backed; a session id resolves to a user id)
and fresh-id counters. -/
structure DB where
  users : List UserRec
  sessions : List (String × Nat)
  projects : List ProjectRec
  userdetails : List UserDetailRec
  clubs : List ClubRec
  nextId : Nat
  nextSid : Nat
  deriving Repr, DecidableEq

/-- An incoming HTTP request: the (optional) session cookie and the
JSON body.  Every key any route of `app.js` destructures appears as an
optional field (absent = `undefined`). -/
structure ReqBody where
  firstname : Option String := none
  lastname : Option String := none
  username : Option String := none
  email : Option String := none
  password : Option String := none
  campus1 : Option String := none
  campus : Option String := none
  phone : Option String := none
  instagram : Option String := none
  twitter : Option String := none
  linkedIn : Option String := none
  github : Option String := none
  fullName : Option String := none
  skills : Option String := none
  projects : Option String := none
  name : Option String := none
  desc : Option String := none
  num : Option String := none
  ptype : Option String := none
  clubName : Option String := none
  description : Option String := none
  googleFormLink : Option String := none
  posterImage : Option String := none
  deriving Repr, DecidableEq

structure Req where
  cookie : Option String := none
  body : ReqBody := {}
  deriving Repr, DecidableEq

/-- A response body, one constructor per shape `app.js` produces. -/
inductive Body where
  | text (s : String)
  | statusMsg (status msg : String)
  | statusId (status : String) (id : Nat)
  | errMsg (m : String)
  | people (l : List (Option String × Option String))
  | detail (d : UserDetailRec)
  | emptyObj
  | projList (l : List ProjectRec)
  | clubList (l : List ClubRec)
  | file (nm : String)
  deriving Repr, DecidableEq

/-- An HTTP response: status code, body, and the session cookie set by
`express-session` when a login succeeds. -/
structure Resp where
  code : Nat
  body : Body
  setCookie : Option String := none
  deriving Repr, DecidableEq

/-- Modelled from the spec: the slow salted one-way hash of the
Credential Store (`register` "derives a salted hash from
plaintextPassword"); in the model an injective stand-in so that
recomputing with the stored salt and comparing is exact. -/
def hashPw (password salt : String) : String :=
  "H(" ++ salt ++ "," ++ password ++ ")"

/-- Modelled from the spec: `resolvePrincipal(Token) → Principal | None`
of the Session Gate — the cookie is looked up in the session store and
the referenced principal fetched; any resolve failure yields `none`
(fail closed). -/
def resolvePrincipal (db : DB) (cookie : Option String) : Option UserRec :=
  match cookie with
  | none => none
  | some sid =>
    match db.sessions.lookup sid with
    | none => none
    | some uid => db.users.find? (fun u => u.id = uid)

/-- Modelled from the spec: the response `isLoggedIn` (from
`./middleware`, not under `src/`) sends when `requireAuthenticated()`
fails on an Anonymous request — `Unauthorized`, terminal for the
request. -/
def unauthorizedResp : Resp := { code := 401, body := .errMsg "Unauthorized" }

/-- Modelled from the spec: the generic authentication-failure response
of `passport.authenticate('local')` — every failure (unknown user,
wrong password, malformed input) surfaces as the same single shape,
with no field indicating which cause applied. -/
def authFailureResp : Resp := { code := 401, body := .text "Unauthorized" }

/-- Modelled from the spec: the Credential Store's
`verify(username, plaintextPassword)` (provided by
`User.authenticate()` of passport-local-mongoose) — look up by
username; if absent fail; otherwise recompute the hash with the stored
salt and compare; on success return the principal. -/
def verify (db : DB) (username password : String) : Option UserRec :=
  match db.users.find? (fun u => u.username = username) with
  | none => none
  | some u => if u.pwHash = hashPw password u.salt then some u else none

/-- Modelled from the spec: `register(candidate, plaintextPassword)` of
the Credential Store (`User.register` of passport-local-mongoose plus
the schema's required/unique validation): every one of the six signup
fields is required, username and email must be unique across all
principals (`DuplicateIdentity` otherwise), and on success the record
is stored with a fresh salt and the salted hash.  Returns the new store
on success, `none` on any registration error. -/
def registerUser (db : DB) (b : ReqBody) (campus1 : String) : Option DB :=
  match b.username, b.email, b.password, b.firstname, b.lastname with
  | some username, some email, some password, some fn, some ln =>
    if db.users.any (fun u => u.username = username || u.email = email) then
      none
    else
      let salt := "salt" ++ toString db.nextId
      let u : UserRec :=
        { id := db.nextId, firstname := some fn, lastname := some ln,
          username := username, email := email, campus1 := campus1,
          pwHash := hashPw password salt, salt := salt }
      some { db with users := db.users ++ [u], nextId := db.nextId + 1 }
  | _, _, _, _, _ => none

/-- `app.post('/signup')`: destructures
`{firstname, lastname, username, email, password, campus1}` from the
body, throws `Campus is required` when `campus1` is falsy — in the
string model, absent (`undefined`) or the empty string (a blank form
field) — otherwise registers the user; any error is caught and
answered with `500 {status:'error', message:'Error during signup'}`. -/
def signupHandler (db : DB) (b : ReqBody) : DB × Resp :=
  match b.campus1 with
  | none => (db, { code := 500, body := .statusMsg "error" "Error during signup" })
  | some campus1 =>
    if campus1 = "" then
      (db, { code := 500, body := .statusMsg "error" "Error during signup" })
    else
      match registerUser db b campus1 with
      | none => (db, { code := 500, body := .statusMsg "error" "Error during signup" })
      | some db' =>
        (db', { code := 200, body := .statusMsg "success" "Signup successful" })

/-- `app.post('/login')`: `passport.authenticate('local')` (modelled
from the spec: any failure yields the one generic `authFailureResp`;
malformed input — a missing username or password — is a failure like
the rest), then on success `express-session` persists a fresh session
for the principal and sets the cookie, and the handler responds
`{status:'success', message:'Welcome'}`. -/
def loginHandler (db : DB) (req : Req) : DB × Resp :=
  match req.body.username, req.body.password with
  | some username, some password =>
    match verify db username password with
    | none => (db, authFailureResp)
    | some u =>
      let sid := "sid" ++ toString db.nextSid
      ({ db with sessions := (sid, u.id) :: db.sessions, nextSid := db.nextSid + 1 },
       { code := 200, body := .statusMsg "success" "Welcome", setCookie := some sid })
  | _, _ => (db, authFailureResp)

/-- `app.post('/makeproj')`: guarded by `isLoggedIn` (modelled from the
spec: an Anonymous request is answered `unauthorizedResp` and the
handler never runs); the handler reads `req.user._id` and
`{name, desc, num, type}` from the body and saves
`new Project({name, desc, num, type, createdBy: userId})`, answering
`{status:'success', id}`. -/
def makeprojHandler (db : DB) (req : Req) : DB × Resp :=
  match resolvePrincipal db req.cookie with
  | none => (db, unauthorizedResp)
  | some user =>
    let p : ProjectRec :=
      { id := db.nextId, name := req.body.name, desc := req.body.desc,
        num := req.body.num, ptype := req.body.ptype, createdBy := user.id }
    ({ db with projects := db.projects ++ [p], nextId := db.nextId + 1 },
     { code := 200, body := .statusId "success" p.id })

/-- `app.get('/userpage')`: `isLoggedIn` (modelled from the spec, as
above), then `getUserDetails` looks up
`userdetail.findOne({email: req.user.email})` and stores the result
(possibly `null`) in `req.userDetails`, and the handler answers
`res.json(req.userDetails || {})`. -/
def userpageGetHandler (db : DB) (req : Req) : Resp :=
  match resolvePrincipal db req.cookie with
  | none => unauthorizedResp
  | some user =>
    match db.userdetails.find? (fun d => d.email = some user.email) with
    | none => { code := 200, body := .emptyObj }
    | some d => { code := 200, body := .detail d }

/-- `app.post('/userpage')` (no auth middleware): destructures
`{phone, instagram, twitter, linkedIn, github, fullName, email, campus,
skills, projects}` from the body, looks up
`userdetail.findOne({email})`; when absent it creates a record from all
ten fields, when present it `Object.assign`s the nine non-email fields
onto the found document (leaving `email` and the document id as they
were) and saves it; either way the saved record is answered with
status 200. -/
def userpagePostHandler (db : DB) (b : ReqBody) : DB × Resp :=
  match db.userdetails.find? (fun d => d.email = b.email) with
  | none =>
    let d : UserDetailRec :=
      { did := db.nextId, phone := b.phone, instagram := b.instagram,
        twitter := b.twitter, linkedIn := b.linkedIn, github := b.github,
        fullName := b.fullName, email := b.email, campus := b.campus,
        skills := b.skills, projects := b.projects }
    ({ db with userdetails := db.userdetails ++ [d], nextId := db.nextId + 1 },
     { code := 200, body := .detail d })
  | some d =>
    let d' : UserDetailRec :=
      { d with phone := b.phone, instagram := b.instagram,
               twitter := b.twitter, linkedIn := b.linkedIn,
               github := b.github, fullName := b.fullName,
               campus := b.campus, skills := b.skills,
               projects := b.projects }
    ({ db with userdetails :=
         db.userdetails.map (fun x => if x.did = d.did then d' else x) },
     { code := 200, body := .detail d' })

/-- `app.get('/people')`: `userdetail.find({}, 'fullName skills -_id')`
— every user-details record projected to its `fullName` and `skills`
fields only. -/
def peopleHandler (db : DB) : Resp :=
  { code := 200, body := .people (db.userdetails.map (fun d => (d.fullName, d.skills))) }

/-- `app.get('/listings')`: all project records. -/
def listingsHandler (db : DB) : Resp :=
  { code := 200, body := .projList db.projects }

/-- `app.get('/clubpost')`: all club records. -/
def clubpostHandler (db : DB) : Resp :=
  { code := 200, body := .clubList db.clubs }

/-- `app.get('/userdetails/:fullName')`:
`userdetail.findOne({fullName: req.params.fullName})`; 404 with
`{message:'User not found'}` when absent, the full record otherwise. -/
def userdetailsByNameHandler (db : DB) (fullName : String) : Resp :=
  match db.userdetails.find? (fun d => d.fullName = some fullName) with
  | none => { code := 404, body := .errMsg "User not found" }
  | some d => { code := 200, body := .detail d }

/-- `app.post('/clublisting')`: stores
`new Club({clubName, type, description, googleFormLink, posterImage})`
from the body and the uploaded file, answering
`{status:'success', message:'Club added!'}`. -/
def clublistingHandler (db : DB) (b : ReqBody) : DB × Resp :=
  let c : ClubRec :=
    { clubName := b.clubName, ctype := b.ptype, description := b.description,
      googleFormLink := b.googleFormLink, posterImage := b.posterImage }
  ({ db with clubs := db.clubs ++ [c] },
   { code := 200, body := .statusMsg "success" "Club added!" })

/-- `app.get('/health')`: `200 'ok'`. -/
def healthHandler : Resp := { code := 200, body := .text "ok" }

/-- `app.get('*')` catch-all: serves the built frontend's
`index.html`. -/
def catchAllHandler : Resp := { code := 200, body := .file "index.html" }

/-- The routes of `app.js`, for statements quantifying over every
route.  `userdetailsByName`'s path parameter rides along. -/
inductive Route where
  | signup
  | login
  | clublogin
  | listings
  | clubpost
  | userpageGet
  | people
  | userdetailsByName (fullName : String)
  | makeproj
  | clublisting
  | userpagePost
  | health
  | catchAll
  deriving Repr, DecidableEq

/-- Dispatch a request to the handler `app.js` mounts on the route
(`app.post('/clublogin')` is the same
`passport.authenticate('local')` chain as `/login`). -/
def handle (r : Route) (db : DB) (req : Req) : DB × Resp :=
  match r with
  | .signup => signupHandler db req.body
  | .login => loginHandler db req
  | .clublogin => loginHandler db req
  | .listings => (db, listingsHandler db)
  | .clubpost => (db, clubpostHandler db)
  | .userpageGet => (db, userpageGetHandler db req)
  | .people => (db, peopleHandler db)
  | .userdetailsByName fn => (db, userdetailsByNameHandler db fn)
  | .makeproj => makeprojHandler db req
  | .clublisting => clublistingHandler db req.body
  | .userpagePost => userpagePostHandler db req.body
  | .health => (db, healthHandler)
  | .catchAll => (db, catchAllHandler)

/-- `sessionOptions.cookie` in `app.js`. -/
structure CookieOptions where
  httpOnly : Bool
  sameSite : String
  secure : Bool
  deriving Repr, DecidableEq

/-- The cookie configuration of `sessionOptions` in `app.js`:
`{httpOnly: true, sameSite: 'lax',
  secure: process.env.NODE_ENV === 'production'}`,
as a function of the `NODE_ENV` environment variable. -/
def sessionCookieOptions (nodeEnv : String) : CookieOptions :=
  { httpOnly := true, sameSite := "lax", secure := nodeEnv == "production" }

/-! ## Concrete fixtures (used by witnesses and counterexamples) -/

def emptyDB : DB :=
  { users := [], sessions := [], projects := [], userdetails := [], clubs := [],
    nextId := 0, nextSid := 0 }

def alice : UserRec :=
  { id := 1, firstname := some "Alice", lastname := some "L", username := "alice",
    email := "a@x.com", campus1 := "Main", pwHash := hashPw "p1" "s1", salt := "s1" }

def bob : UserRec :=
  { id := 2, firstname := some "Bob", lastname := some "M", username := "bob",
    email := "b@x.com", campus1 := "Main", pwHash := hashPw "p2" "s2", salt := "s2" }

def aliceDetails : UserDetailRec :=
  { did := 7, phone := some "123", instagram := none, twitter := none,
    linkedIn := none, github := none, fullName := some "Alice L",
    email := some "a@x.com", campus := some "Main", skills := some "lean",
    projects := none }

def sampleDB : DB :=
  { users := [alice, bob], sessions := [("sidA", 1), ("sidB", 2)], projects := [],
    userdetails := [aliceDetails], clubs := [], nextId := 10, nextSid := 3 }

def overwriteBody : ReqBody := { email := some "a@x.com" }

def attackBody : ReqBody :=
  { email := some "a@x.com", fullName := some "Mallory", skills := some "social" }

/-- The record `registerUser` stores for a complete, fresh signup
body. -/
def freshUser (db : DB) (fn ln un em pw c : String) : UserRec :=
  { id := db.nextId, firstname := some fn, lastname := some ln,
    username := un, email := em, campus1 := c,
    pwHash := hashPw pw ("salt" ++ toString db.nextId),
    salt := "salt" ++ toString db.nextId }

/-- A signup body carrying all six fields of the claim — with the
campus value under the key `campus`, as the claim's field list names
it. -/
def campusKeyBody : ReqBody :=
  { firstname := some "Asha", lastname := some "Rao", username := some "asha",
    email := some "asha@x.com", password := some "pw", campus := some "Pune" }

/-- First-signup body for the duplicate-identity witness. -/
def daveBody : ReqBody :=
  { firstname := some "Dave", lastname := some "O", username := some "dave",
    email := some "d@x.com", password := some "p4", campus1 := some "Main" }

/-- Second-signup body reusing only `daveBody`'s email. -/
def eveBody : ReqBody :=
  { firstname := some "Eve", lastname := some "P", username := some "eve",
    email := some "d@x.com", password := some "p5", campus1 := some "Main" }

/-! ## Where response strings come from (C7) -/

def optStr : Option String → List String
  | none => []
  | some s => [s]

/-- All strings stored in a user-details record. -/
def detailStrings (d : UserDetailRec) : List String :=
  optStr d.phone ++ optStr d.instagram ++ optStr d.twitter ++ optStr d.linkedIn ++
    optStr d.github ++ optStr d.fullName ++ optStr d.email ++ optStr d.campus ++
      optStr d.skills ++ optStr d.projects

/-- All strings stored in a project record. -/
def projectStrings (p : ProjectRec) : List String :=
  optStr p.name ++ optStr p.desc ++ optStr p.num ++ optStr p.ptype

/-- All strings stored in a club record. -/
def clubStrings (c : ClubRec) : List String :=
  optStr c.clubName ++ optStr c.ctype ++ optStr c.description ++
    optStr c.googleFormLink ++ optStr c.posterImage

/-- All strings a request body supplies. -/
def reqStrings (b : ReqBody) : List String :=
  optStr b.firstname ++ optStr b.lastname ++ optStr b.username ++ optStr b.email ++
    optStr b.password ++ optStr b.campus1 ++ optStr b.campus ++ optStr b.phone ++
      optStr b.instagram ++ optStr b.twitter ++ optStr b.linkedIn ++
        optStr b.github ++ optStr b.fullName ++ optStr b.skills ++
          optStr b.projects ++ optStr b.name ++ optStr b.desc ++ optStr b.num ++
            optStr b.ptype ++ optStr b.clubName ++ optStr b.description ++
              optStr b.googleFormLink ++ optStr b.posterImage

/-- The strings occurring in a response body. -/
def bodyStrings : Body → List String
  | .text s => [s]
  | .statusMsg status msg => [status, msg]
  | .statusId status _ => [status]
  | .errMsg m => [m]
  | .people l => l.flatMap (fun pr => optStr pr.1 ++ optStr pr.2)
  | .detail d => detailStrings d
  | .emptyObj => []
  | .projList l => l.flatMap projectStrings
  | .clubList l => l.flatMap clubStrings
  | .file nm => [nm]

/-- The fixed literals `app.js` writes into responses. -/
def constStrings : List String :=
  ["ok", "success", "error", "Signup successful", "Error during signup",
    "Welcome", "Unauthorized", "Club added!", "User not found", "index.html"]

/-- Every string a response is allowed to draw on: fixed literals, the
request's own fields, and the contents of the credential-free
collections (`userdetail`, `Project`, `Club`).  The `users` collection
— the only one holding secret material — contributes nothing. -/
def nonSecretPool (db : DB) (req : Req) : List String :=
  constStrings ++ reqStrings req.body ++ db.userdetails.flatMap detailStrings ++
    db.projects.flatMap projectStrings ++ db.clubs.flatMap clubStrings

/-- A principal's secret material: the stored password hash and
salt. -/
def secretStrings (db : DB) : List String :=
  db.users.flatMap (fun u => [u.pwHash, u.salt])

/-! ## Theorems -/

/-- C1: a request to a privileged route (`POST /makeproj`,
`GET /userpage`) in the Anonymous state — no cookie, or a cookie that
does not resolve to a live session — is answered `Unauthorized`; the
wrapped handler never runs and no side effect happens (the store,
in particular the project collection, is unchanged). -/
theorem anonymous_privileged_request_rejected_no_side_effect
    (db : DB) (req : Req) (h : resolvePrincipal db req.cookie = none) :
    makeprojHandler db req = (db, unauthorizedResp) ∧
    (makeprojHandler db req).1.projects = db.projects ∧
    userpageGetHandler db req = unauthorizedResp := by
  refine ⟨?_, ?_, ?_⟩ <;> simp [makeprojHandler, userpageGetHandler, h]

theorem anonymous_privileged_request_rejected_no_side_effect_witness :
    resolvePrincipal sampleDB (some "nope") = none ∧
    makeprojHandler sampleDB { cookie := some "nope" } = (sampleDB, unauthorizedResp) ∧
    userpageGetHandler sampleDB { cookie := some "nope" } = unauthorizedResp := by
  have h := anonymous_privileged_request_rejected_no_side_effect sampleDB
    { cookie := some "nope" } (by decide)
  exact ⟨by decide, h.1, h.2.2⟩

/-- C2: a project created through `POST /makeproj` is stamped with the
session principal's identity (`createdBy = req.user._id`), never with a
client-supplied body field: for any body whatsoever the appended record
has `createdBy = u.id`, and two requests with identical bodies but
different session principals create records with different owners. -/
theorem makeproj_owner_from_session_principal
    (db : DB) (r1 r2 : Req) (u1 u2 : UserRec)
    (h1 : resolvePrincipal db r1.cookie = some u1)
    (h2 : resolvePrincipal db r2.cookie = some u2)
    (hbody : r1.body = r2.body) (hne : u1.id ≠ u2.id) :
    ∃ p1 p2 : ProjectRec,
      (makeprojHandler db r1).1.projects = db.projects ++ [p1] ∧
      (makeprojHandler db r2).1.projects = db.projects ++ [p2] ∧
      p1.createdBy = u1.id ∧ p2.createdBy = u2.id ∧
      p1.createdBy ≠ p2.createdBy ∧
      p1.name = p2.name ∧ p1.desc = p2.desc ∧ p1.num = p2.num ∧
      p1.ptype = p2.ptype := by
  refine ⟨{ id := db.nextId, name := r1.body.name, desc := r1.body.desc,
            num := r1.body.num, ptype := r1.body.ptype, createdBy := u1.id },
          { id := db.nextId, name := r2.body.name, desc := r2.body.desc,
            num := r2.body.num, ptype := r2.body.ptype, createdBy := u2.id },
          ?_, ?_, rfl, rfl, hne, ?_, ?_, ?_, ?_⟩
  · simp [makeprojHandler, h1]
  · simp [makeprojHandler, h2]
  all_goals rw [hbody]

theorem makeproj_owner_from_session_principal_witness :
    resolvePrincipal sampleDB (some "sidA") = some alice ∧
    resolvePrincipal sampleDB (some "sidB") = some bob ∧
    alice.id ≠ bob.id ∧
    ∃ p1 p2 : ProjectRec,
      (makeprojHandler sampleDB { cookie := some "sidA" }).1.projects
        = sampleDB.projects ++ [p1] ∧
      (makeprojHandler sampleDB { cookie := some "sidB" }).1.projects
        = sampleDB.projects ++ [p2] ∧
      p1.createdBy = alice.id ∧ p2.createdBy = bob.id ∧
      p1.createdBy ≠ p2.createdBy ∧
      p1.name = p2.name ∧ p1.desc = p2.desc ∧ p1.num = p2.num ∧
      p1.ptype = p2.ptype := by
  exact ⟨by decide, by decide, by decide,
    makeproj_owner_from_session_principal sampleDB { cookie := some "sidA" }
      { cookie := some "sidB" } alice bob (by decide) (by decide) rfl (by decide)⟩

/-- C9: an authenticated `GET /userpage` whose principal has no
matching `userdetail` document (none with the principal's email) is
answered `200` with the empty object `{}` rather than an error
(`res.json(req.userDetails || {})`). -/
theorem userpage_get_missing_details_yields_empty_200
    (db : DB) (req : Req) (u : UserRec)
    (hauth : resolvePrincipal db req.cookie = some u)
    (hnone : db.userdetails.find? (fun d => d.email = some u.email) = none) :
    userpageGetHandler db req = { code := 200, body := .emptyObj } := by
  simp [userpageGetHandler, hauth, hnone]

theorem userpage_get_missing_details_yields_empty_200_witness :
    resolvePrincipal sampleDB (some "sidB") = some bob ∧
    sampleDB.userdetails.find? (fun d => d.email = some bob.email) = none ∧
    userpageGetHandler sampleDB { cookie := some "sidB" }
      = { code := 200, body := .emptyObj } :=
  ⟨by decide, by decide,
   userpage_get_missing_details_yields_empty_200 sampleDB { cookie := some "sidB" }
     bob (by decide) (by decide)⟩

/-- C10: when `POST /userpage` updates an existing record (one with the
supplied email already present), the `Object.assign` overwrites exactly
`phone, instagram, twitter, linkedIn, github, fullName, campus, skills,
projects` from the request body, and leaves the record's `email` (and
identity) unchanged; all other records are untouched. -/
theorem userpage_post_update_preserves_email
    (db : DB) (b : ReqBody) (d : UserDetailRec)
    (hfind : db.userdetails.find? (fun x => x.email = b.email) = some d) :
    ∃ d', (userpagePostHandler db b).1.userdetails
            = db.userdetails.map (fun x => if x.did = d.did then d' else x) ∧
      d'.did = d.did ∧ d'.email = d.email ∧
      d'.phone = b.phone ∧ d'.instagram = b.instagram ∧ d'.twitter = b.twitter ∧
      d'.linkedIn = b.linkedIn ∧ d'.github = b.github ∧ d'.fullName = b.fullName ∧
      d'.campus = b.campus ∧ d'.skills = b.skills ∧ d'.projects = b.projects := by
  refine ⟨{ d with
            phone := b.phone
            instagram := b.instagram
            twitter := b.twitter
            linkedIn := b.linkedIn
            github := b.github
            fullName := b.fullName
            campus := b.campus
            skills := b.skills
            projects := b.projects },
          ?_, rfl, rfl, rfl, rfl, rfl, rfl, rfl, rfl, rfl, rfl, rfl⟩
  simp [userpagePostHandler, hfind]

theorem userpage_post_update_preserves_email_witness :
    sampleDB.userdetails.find? (fun x => x.email = overwriteBody.email)
        = some aliceDetails ∧
    ∃ d', (userpagePostHandler sampleDB overwriteBody).1.userdetails
            = sampleDB.userdetails.map
                (fun x => if x.did = aliceDetails.did then d' else x) ∧
      d'.did = aliceDetails.did ∧ d'.email = aliceDetails.email ∧
      d'.phone = none ∧ d'.instagram = none ∧ d'.twitter = none ∧
      d'.linkedIn = none ∧ d'.github = none ∧ d'.fullName = none ∧
      d'.campus = none ∧ d'.skills = none ∧ d'.projects = none :=
  ⟨by decide,
   userpage_post_update_preserves_email sampleDB overwriteBody
     aliceDetails (by decide)⟩

/-- C3: `POST /userpage` is mounted with no auth middleware: the
handler never consults the session cookie (any two cookie states give
the same outcome, so a request with no valid session is accepted), it
selects the record to create or overwrite solely by the body's `email`
field, and when a record with that email exists, any caller's request
body overwrites that record's profile fields. -/
theorem userpage_post_unauthenticated_overwrite_by_email
    (db : DB) (b : ReqBody) (d : UserDetailRec)
    (hfind : db.userdetails.find? (fun x => x.email = b.email) = some d) :
    (∀ c : Option String,
      handle .userpagePost db { cookie := c, body := b } = userpagePostHandler db b) ∧
    (userpagePostHandler db b).2.code = 200 ∧
    ∃ d', (userpagePostHandler db b).1.userdetails
            = db.userdetails.map (fun x => if x.did = d.did then d' else x) ∧
      d'.did = d.did ∧ d'.fullName = b.fullName ∧ d'.phone = b.phone ∧
      d'.campus = b.campus ∧ d'.skills = b.skills ∧ d'.projects = b.projects := by
  refine ⟨fun c => rfl, ?_, ?_⟩
  · simp [userpagePostHandler, hfind]
  · refine ⟨{ d with
              phone := b.phone
              instagram := b.instagram
              twitter := b.twitter
              linkedIn := b.linkedIn
              github := b.github
              fullName := b.fullName
              campus := b.campus
              skills := b.skills
              projects := b.projects },
            ?_, rfl, rfl, rfl, rfl, rfl, rfl⟩
    simp [userpagePostHandler, hfind]

theorem userpage_post_unauthenticated_overwrite_by_email_witness :
    sampleDB.userdetails.find? (fun x => x.email = attackBody.email)
      = some aliceDetails ∧
    handle .userpagePost sampleDB { cookie := none, body := attackBody }
      = userpagePostHandler sampleDB attackBody ∧
    (userpagePostHandler sampleDB attackBody).2.code = 200 ∧
    ∃ d', (userpagePostHandler sampleDB attackBody).1.userdetails
            = sampleDB.userdetails.map
                (fun x => if x.did = aliceDetails.did then d' else x) ∧
      d'.did = aliceDetails.did ∧ d'.fullName = some "Mallory" ∧ d'.phone = none ∧
      d'.campus = none ∧ d'.skills = some "social" ∧ d'.projects = none := by
  have h := userpage_post_unauthenticated_overwrite_by_email sampleDB attackBody
    aliceDetails (by decide)
  exact ⟨by decide, h.1 none, h.2.1, h.2.2⟩

/-- C4: every failing login attempt — unknown username, wrong
password, or malformed input (a missing field) — is answered with the
one generic authentication-failure response, with nothing
distinguishing the cause; the only other possible outcome is a
verified success, which sets a session cookie and answers
`{status:'success'}`. -/
theorem login_failures_uniform_success_sets_cookie (db : DB) (r : Req) :
    (loginHandler db r).2 = authFailureResp ∨
    ((loginHandler db r).2.code = 200 ∧
     (loginHandler db r).2.body = .statusMsg "success" "Welcome" ∧
     (loginHandler db r).2.setCookie.isSome = true ∧
     ∃ u p usr, r.body.username = some u ∧ r.body.password = some p ∧
       verify db u p = some usr) := by
  rcases hu : r.body.username with _ | u
  · left; simp [loginHandler, hu]
  · rcases hp : r.body.password with _ | p
    · left; simp [loginHandler, hu, hp]
    · rcases hv : verify db u p with _ | usr
      · left; simp [loginHandler, hu, hp, hv]
      · right
        refine ⟨?_, ?_, ?_, u, p, usr, rfl, rfl, hv⟩ <;>
          simp [loginHandler, hu, hp, hv]

/-- If some user of the store already carries the username or the
email the body presents, `registerUser` fails, whatever else the body
contains. -/
theorem registerUser_none_of_identity_taken
    (db : DB) (b : ReqBody) (c : String)
    (htaken : (∃ u ∈ db.users, b.username = some u.username) ∨
              (∃ u ∈ db.users, b.email = some u.email)) :
    registerUser db b c = none := by
  unfold registerUser
  rcases hun : b.username with _ | un <;>
    rcases hem : b.email with _ | em <;>
      rcases b.password with _ | pw <;>
        rcases b.firstname with _ | fn <;>
          rcases b.lastname with _ | ln <;>
            simp only []
  have hany : db.users.any (fun v => v.username = un || v.email = em) = true := by
    simp only [List.any_eq_true]
    rcases htaken with ⟨u, hu, hequ⟩ | ⟨u, hu, hequ⟩
    · rw [hun] at hequ
      have huv : un = u.username := by injection hequ
      exact ⟨u, hu, by simp [huv]⟩
    · rw [hem] at hequ
      have huv : em = u.email := by injection hequ
      exact ⟨u, hu, by simp [huv]⟩
  simp [hany]

/-- When registration fails whatever the campus value, the signup
route answers the one generic failure and leaves the store as it
was. -/
theorem signupHandler_error_of_register_none
    (db : DB) (b : ReqBody)
    (h : ∀ c, registerUser db b c = none) :
    signupHandler db b
      = (db, { code := 500, body := .statusMsg "error" "Error during signup" }) := by
  unfold signupHandler
  rcases b.campus1 with _ | c
  · rfl
  · by_cases hce : c = ""
    · simp [hce]
    · simp [hce, h c]

/-- A signup whose body carries all six fields and whose username and
email are fresh succeeds and appends exactly one user record carrying
those fields. -/
theorem signup_success_appends_user
    (db : DB) (b : ReqBody) (fn ln un em pw c : String)
    (hfn : b.firstname = some fn) (hln : b.lastname = some ln)
    (hun : b.username = some un) (hem : b.email = some em)
    (hpw : b.password = some pw) (hc : b.campus1 = some c) (hcne : c ≠ "")
    (hfresh : ∀ u ∈ db.users, u.username ≠ un ∧ u.email ≠ em) :
    signupHandler db b =
      ({ db with
          users := db.users ++ [freshUser db fn ln un em pw c]
          nextId := db.nextId + 1 },
       { code := 200, body := .statusMsg "success" "Signup successful" }) := by
  have hany : db.users.any (fun v => v.username = un || v.email = em) = false := by
    simp only [List.any_eq_false]
    intro u hu
    have := hfresh u hu
    simp [this.1, this.2]
  unfold signupHandler registerUser
  rw [hc, hun, hem, hpw, hfn, hln]
  simp [hany, hcne, freshUser]

theorem signup_success_appends_user_witness :
    (∀ u ∈ sampleDB.users, u.username ≠ "carol" ∧ u.email ≠ "c@x.com") ∧
    (signupHandler sampleDB
        { firstname := some "Carol", lastname := some "N",
          username := some "carol", email := some "c@x.com",
          password := some "p3", campus1 := some "Main" }).2
      = { code := 200, body := .statusMsg "success" "Signup successful" } := by
  have h := signup_success_appends_user sampleDB
    { firstname := some "Carol", lastname := some "N", username := some "carol",
      email := some "c@x.com", password := some "p3", campus1 := some "Main" }
    "Carol" "N" "carol" "c@x.com" "p3" "Main" rfl rfl rfl rfl rfl rfl (by decide)
    (by decide)
  exact ⟨by decide, by rw [h]⟩

/-- C5: a signup with a unique username and email succeeds exactly
once: the first request appends one record and answers success, and
any second signup presenting the same username or the same email —
whatever the rest of its body — answers the generic failure status
and leaves the credential store exactly as the first signup left it
(the first record is not overwritten and no second record is
created). -/
theorem signup_duplicate_identity_rejected_store_unchanged
    (db : DB) (b b2 : ReqBody) (fn ln un em pw c : String)
    (hfn : b.firstname = some fn) (hln : b.lastname = some ln)
    (hun : b.username = some un) (hem : b.email = some em)
    (hpw : b.password = some pw) (hc : b.campus1 = some c) (hcne : c ≠ "")
    (hfresh : ∀ u ∈ db.users, u.username ≠ un ∧ u.email ≠ em)
    (hb2 : b2.username = some un ∨ b2.email = some em) :
    ∃ newU : UserRec, newU.username = un ∧ newU.email = em ∧
      (signupHandler db b).1.users = db.users ++ [newU] ∧
      (signupHandler db b).2
        = { code := 200, body := .statusMsg "success" "Signup successful" } ∧
      (signupHandler (signupHandler db b).1 b2).1 = (signupHandler db b).1 ∧
      (signupHandler (signupHandler db b).1 b2).2
        = { code := 500, body := .statusMsg "error" "Error during signup" } := by
  have hfirst := signup_success_appends_user db b fn ln un em pw c
    hfn hln hun hem hpw hc hcne hfresh
  have hmem : freshUser db fn ln un em pw c ∈ (signupHandler db b).1.users := by
    rw [hfirst]; simp
  have htaken :
      (∃ u ∈ (signupHandler db b).1.users, b2.username = some u.username) ∨
      (∃ u ∈ (signupHandler db b).1.users, b2.email = some u.email) := by
    rcases hb2 with h | h
    · exact Or.inl ⟨freshUser db fn ln un em pw c, hmem, h⟩
    · exact Or.inr ⟨freshUser db fn ln un em pw c, hmem, h⟩
  have hsecond : ∀ c2, registerUser (signupHandler db b).1 b2 c2 = none :=
    fun c2 => registerUser_none_of_identity_taken _ b2 c2 htaken
  have hdup := signupHandler_error_of_register_none (signupHandler db b).1 b2 hsecond
  refine ⟨freshUser db fn ln un em pw c, rfl, rfl, by rw [hfirst],
    by rw [hfirst], by rw [hdup], by rw [hdup]⟩

theorem signup_duplicate_identity_rejected_store_unchanged_witness :
    ∃ newU : UserRec, newU.username = "dave" ∧ newU.email = "d@x.com" ∧
      (signupHandler emptyDB daveBody).1.users = emptyDB.users ++ [newU] ∧
      (signupHandler emptyDB daveBody).2
        = { code := 200, body := .statusMsg "success" "Signup successful" } ∧
      (signupHandler (signupHandler emptyDB daveBody).1 eveBody).1
        = (signupHandler emptyDB daveBody).1 ∧
      (signupHandler (signupHandler emptyDB daveBody).1 eveBody).2
        = { code := 500, body := .statusMsg "error" "Error during signup" } :=
  signup_duplicate_identity_rejected_store_unchanged emptyDB daveBody eveBody
    "Dave" "O" "dave" "d@x.com" "p4" "Main"
    rfl rfl rfl rfl rfl rfl (by decide) (by decide) (Or.inr rfl)

/-- C8: the session cookie configuration of `app.js`
(`sessionOptions.cookie`) is HTTP-only and scoped to same-site
requests (`sameSite: 'lax'`); the service is served over an encrypted
transport exactly in its production deployment (`trust proxy` behind
the TLS-terminating host), and there the cookie is marked secure
(`secure: process.env.NODE_ENV === 'production'`). -/
theorem session_cookie_httponly_samesite_secure (nodeEnv : String) :
    (sessionCookieOptions nodeEnv).httpOnly = true ∧
    (sessionCookieOptions nodeEnv).sameSite = "lax" ∧
    (nodeEnv = "production" → (sessionCookieOptions nodeEnv).secure = true) := by
  refine ⟨rfl, rfl, fun h => ?_⟩
  simp [sessionCookieOptions, h]

theorem session_cookie_httponly_samesite_secure_witness :
    (sessionCookieOptions "production").httpOnly = true ∧
    (sessionCookieOptions "production").sameSite = "lax" ∧
    (sessionCookieOptions "production").secure = true :=
  ⟨(session_cookie_httponly_samesite_secure "production").1,
   (session_cookie_httponly_samesite_secure "production").2.1,
   (session_cookie_httponly_samesite_secure "production").2.2 rfl⟩

/-- C6 counterexample: the signup route reads the campus value from
the body key `campus1`, not `campus`.  A payload carrying all six
fields of the claim (campus under the key `campus`) is rejected with
the generic failure and creates no user — the claim's "complete valid
payload returns `{status:'success'}`" is false at this input — while
the same payload with the value moved to `campus1` succeeds. -/
theorem signup_campus_key_counterexample :
    (signupHandler emptyDB campusKeyBody).2
      = { code := 500, body := .statusMsg "error" "Error during signup" } ∧
    (signupHandler emptyDB campusKeyBody).1.users = [] ∧
    (signupHandler emptyDB
        { campusKeyBody with campus := none, campus1 := some "Pune" }).2.body
      = .statusMsg "success" "Signup successful" := by
  refine ⟨by decide, by decide, ?_⟩
  decide

/-- C6 (amended): every signup field is required, with the campus
value supplied under the body key `campus1` and subject to the route's
falsy check: a body whose `campus1` is absent or the empty string (a
blank form field) is a validation failure answered by the generic
failure status with the store unchanged; a body missing any of the
other five fields is likewise answered by the generic failure with the
store unchanged; and a body carrying all six (non-blank `campus1`,
fresh username and email) is answered `{status:'success'}` and creates
the user. -/
theorem signup_requires_all_fields_campus1
    (db : DB) (b : ReqBody) :
    ((b.campus1 = none ∨ b.campus1 = some "") →
      signupHandler db b
        = (db, { code := 500, body := .statusMsg "error" "Error during signup" })) ∧
    ((b.firstname = none ∨ b.lastname = none ∨ b.username = none ∨
      b.email = none ∨ b.password = none) →
      signupHandler db b
        = (db, { code := 500, body := .statusMsg "error" "Error during signup" })) ∧
    (∀ fn ln un em pw c,
      b.firstname = some fn → b.lastname = some ln → b.username = some un →
      b.email = some em → b.password = some pw → b.campus1 = some c → c ≠ "" →
      (∀ u ∈ db.users, u.username ≠ un ∧ u.email ≠ em) →
      (signupHandler db b).2
          = { code := 200, body := .statusMsg "success" "Signup successful" } ∧
        (signupHandler db b).1.users = db.users ++ [freshUser db fn ln un em pw c]) := by
  refine ⟨?_, ?_, ?_⟩
  · intro h
    rcases h with h | h <;> unfold signupHandler <;> rw [h]
    simp
  · intro h
    have hreg : ∀ c, registerUser db b c = none := by
      intro c
      unfold registerUser
      rcases h1 : b.username with _ | un <;> rcases h2 : b.email with _ | em <;>
        rcases h3 : b.password with _ | pw <;> rcases h4 : b.firstname with _ | fn <;>
          rcases h5 : b.lastname with _ | ln <;>
            simp_all
    exact signupHandler_error_of_register_none db b hreg
  · intro fn ln un em pw c hfn hln hun hem hpw hc hcne hfresh
    have h := signup_success_appends_user db b fn ln un em pw c
      hfn hln hun hem hpw hc hcne hfresh
    rw [h]
    exact ⟨rfl, rfl⟩

theorem signup_requires_all_fields_campus1_witness :
    signupHandler emptyDB { username := some "u", email := some "e@x.com" }
      = (emptyDB, { code := 500, body := .statusMsg "error" "Error during signup" }) ∧
    signupHandler emptyDB { campusKeyBody with campus := none, campus1 := some "" }
      = (emptyDB, { code := 500, body := .statusMsg "error" "Error during signup" }) ∧
    signupHandler emptyDB { campusKeyBody with firstname := none, campus1 := some "Pune" }
      = (emptyDB, { code := 500, body := .statusMsg "error" "Error during signup" }) ∧
    (signupHandler emptyDB { campusKeyBody with campus := none, campus1 := some "Pune" }).2
      = { code := 200, body := .statusMsg "success" "Signup successful" } := by
  refine ⟨(signup_requires_all_fields_campus1 emptyDB _).1 (Or.inl rfl),
    (signup_requires_all_fields_campus1 emptyDB _).1 (Or.inr rfl),
    (signup_requires_all_fields_campus1 emptyDB _).2.1 (Or.inl rfl),
    ((signup_requires_all_fields_campus1 emptyDB
        { campusKeyBody with campus := none, campus1 := some "Pune" }).2.2
      "Asha" "Rao" "asha" "asha@x.com" "pw" "Pune"
      rfl rfl rfl rfl rfl rfl (by decide) (by decide)).1⟩

theorem mem_pool_of_const {s : String} (db : DB) (req : Req)
    (h : s ∈ constStrings) : s ∈ nonSecretPool db req := by
  simp only [nonSecretPool, List.mem_append]
  exact Or.inl (Or.inl (Or.inl (Or.inl h)))

theorem mem_pool_of_req {s : String} (db : DB) (req : Req)
    (h : s ∈ reqStrings req.body) : s ∈ nonSecretPool db req := by
  simp only [nonSecretPool, List.mem_append]
  exact Or.inl (Or.inl (Or.inl (Or.inr h)))

theorem mem_pool_of_detail {s : String} (db : DB) (req : Req) (d : UserDetailRec)
    (hd : d ∈ db.userdetails) (h : s ∈ detailStrings d) : s ∈ nonSecretPool db req := by
  simp only [nonSecretPool, List.mem_append, List.mem_flatMap]
  exact Or.inl (Or.inl (Or.inr ⟨d, hd, h⟩))

theorem mem_pool_of_proj {s : String} (db : DB) (req : Req) (p : ProjectRec)
    (hp : p ∈ db.projects) (h : s ∈ projectStrings p) : s ∈ nonSecretPool db req := by
  simp only [nonSecretPool, List.mem_append, List.mem_flatMap]
  exact Or.inl (Or.inr ⟨p, hp, h⟩)

theorem mem_pool_of_club {s : String} (db : DB) (req : Req) (c : ClubRec)
    (hc : c ∈ db.clubs) (h : s ∈ clubStrings c) : s ∈ nonSecretPool db req := by
  simp only [nonSecretPool, List.mem_append, List.mem_flatMap]
  exact Or.inr ⟨c, hc, h⟩

/-- Reduce a membership into a list of literals to a membership into
`constStrings`. -/
theorem mem_constStrings_of_mem (s : String) (l : List String)
    (hsub : ∀ x ∈ l, x ∈ constStrings) (hs : s ∈ l) : s ∈ constStrings :=
  hsub s hs

/-- The signup route's body is one of its two status literals. -/
theorem signup_body_cases (db : DB) (b : ReqBody) :
    (signupHandler db b).2.body = .statusMsg "error" "Error during signup" ∨
    (signupHandler db b).2.body = .statusMsg "success" "Signup successful" := by
  rcases hc : b.campus1 with _ | c
  · left; simp [signupHandler, hc]
  · by_cases hce : c = ""
    · left; simp [signupHandler, hc, hce]
    · rcases hr : registerUser db b c with _ | db'
      · left; simp [signupHandler, hc, hce, hr]
      · right; simp [signupHandler, hc, hce, hr]

/-- The login route's body is the generic failure text or the success
literal. -/
theorem login_body_cases (db : DB) (r : Req) :
    (loginHandler db r).2.body = .text "Unauthorized" ∨
    (loginHandler db r).2.body = .statusMsg "success" "Welcome" := by
  rcases hu : r.body.username with _ | u
  · left; simp [loginHandler, hu, authFailureResp]
  · rcases hp : r.body.password with _ | p
    · left; simp [loginHandler, hu, hp, authFailureResp]
    · rcases hv : verify db u p with _ | usr
      · left; simp [loginHandler, hu, hp, hv, authFailureResp]
      · right; simp [loginHandler, hu, hp, hv]

/-- The makeproj route's body is the unauthorized literal or the
success-with-id literal. -/
theorem makeproj_body_cases (db : DB) (r : Req) :
    (makeprojHandler db r).2.body = .errMsg "Unauthorized" ∨
    ∃ idv, (makeprojHandler db r).2.body = .statusId "success" idv := by
  rcases hr : resolvePrincipal db r.cookie with _ | u
  · left; simp [makeprojHandler, hr, unauthorizedResp]
  · right; exact ⟨db.nextId, by simp [makeprojHandler, hr]⟩

/-- The `GET /userpage` body is the unauthorized literal, the empty
object, or a stored user-details record. -/
theorem userpageGet_body_cases (db : DB) (r : Req) :
    (userpageGetHandler db r).body = .errMsg "Unauthorized" ∨
    (userpageGetHandler db r).body = .emptyObj ∨
    ∃ d ∈ db.userdetails, (userpageGetHandler db r).body = .detail d := by
  rcases hr : resolvePrincipal db r.cookie with _ | u
  · left; simp [userpageGetHandler, hr, unauthorizedResp]
  · rcases hf : db.userdetails.find? (fun d => d.email = some u.email) with _ | d
    · right; left; simp [userpageGetHandler, hr, hf]
    · right; right
      exact ⟨d, List.mem_of_find?_eq_some hf, by simp [userpageGetHandler, hr, hf]⟩

/-- The `/userdetails/:fullName` body is the not-found literal or a
stored user-details record. -/
theorem userdetailsByName_body_cases (db : DB) (fn : String) :
    (userdetailsByNameHandler db fn).body = .errMsg "User not found" ∨
    ∃ d ∈ db.userdetails, (userdetailsByNameHandler db fn).body = .detail d := by
  rcases hf : db.userdetails.find? (fun d => d.fullName = some fn) with _ | d
  · left; simp [userdetailsByNameHandler, hf]
  · right
    exact ⟨d, List.mem_of_find?_eq_some hf, by simp [userdetailsByNameHandler, hf]⟩

theorem mem_optStr {s : String} {o : Option String} :
    s ∈ optStr o ↔ o = some s := by
  cases o <;> simp [optStr, eq_comm]

/-- Every string in the `POST /userpage` response comes from the
request body or from a stored user-details record. -/
theorem userpagePost_body_strings (db : DB) (b : ReqBody) (s : String)
    (hs : s ∈ bodyStrings (userpagePostHandler db b).2.body) :
    s ∈ reqStrings b ∨ ∃ d ∈ db.userdetails, s ∈ detailStrings d := by
  rcases hf : db.userdetails.find? (fun x => x.email = b.email) with _ | d <;>
    unfold userpagePostHandler at hs <;> rw [hf] at hs <;>
      simp only [bodyStrings, detailStrings, List.mem_append, mem_optStr, or_assoc] at hs
  · rcases hs with h | h | h | h | h | h | h | h | h | h <;>
      exact Or.inl (by simp [reqStrings, mem_optStr, h])
  · have hd := List.mem_of_find?_eq_some hf
    rcases hs with h | h | h | h | h | h | h | h | h | h
    · exact Or.inl (by simp [reqStrings, mem_optStr, h])
    · exact Or.inl (by simp [reqStrings, mem_optStr, h])
    · exact Or.inl (by simp [reqStrings, mem_optStr, h])
    · exact Or.inl (by simp [reqStrings, mem_optStr, h])
    · exact Or.inl (by simp [reqStrings, mem_optStr, h])
    · exact Or.inl (by simp [reqStrings, mem_optStr, h])
    · exact Or.inr ⟨d, hd, by simp [detailStrings, mem_optStr, h]⟩
    · exact Or.inl (by simp [reqStrings, mem_optStr, h])
    · exact Or.inl (by simp [reqStrings, mem_optStr, h])
    · exact Or.inl (by simp [reqStrings, mem_optStr, h])

/-- C7: no response of any route contains a principal's secret
material.  Every string in every response body is drawn from the
non-secret pool — the fixed response literals, the request's own
fields, and the credential-free `userdetail`/`Project`/`Club`
collections; the `users` collection, the only store of password hashes
and salts, contributes nothing.  Consequently, whenever the stored
secrets do not textually coincide with a pool string, no response
string is a secret. -/
theorem response_never_contains_secret_material
    (r : Route) (db : DB) (req : Req) (s : String)
    (hs : s ∈ bodyStrings (handle r db req).2.body) :
    s ∈ nonSecretPool db req ∧
      ((∀ t ∈ secretStrings db, t ∉ nonSecretPool db req) →
        s ∉ secretStrings db) := by
  have hpool : s ∈ nonSecretPool db req := by
    cases r with
    | signup =>
      simp only [handle] at hs
      rcases signup_body_cases db req.body with h | h <;> rw [h] at hs <;>
        exact mem_pool_of_const db req (mem_constStrings_of_mem s _ (by decide) hs)
    | login =>
      simp only [handle] at hs
      rcases login_body_cases db req with h | h <;> rw [h] at hs <;>
        exact mem_pool_of_const db req (mem_constStrings_of_mem s _ (by decide) hs)
    | clublogin =>
      simp only [handle] at hs
      rcases login_body_cases db req with h | h <;> rw [h] at hs <;>
        exact mem_pool_of_const db req (mem_constStrings_of_mem s _ (by decide) hs)
    | listings =>
      simp only [handle, listingsHandler, bodyStrings, List.mem_flatMap] at hs
      rcases hs with ⟨p, hp, hsp⟩
      exact mem_pool_of_proj db req p hp hsp
    | clubpost =>
      simp only [handle, clubpostHandler, bodyStrings, List.mem_flatMap] at hs
      rcases hs with ⟨c, hc, hsc⟩
      exact mem_pool_of_club db req c hc hsc
    | userpageGet =>
      simp only [handle] at hs
      rcases userpageGet_body_cases db req with h | h | ⟨d, hd, h⟩ <;> rw [h] at hs
      · exact mem_pool_of_const db req (mem_constStrings_of_mem s _ (by decide) hs)
      · exact mem_pool_of_const db req (mem_constStrings_of_mem s _ (by decide) hs)
      · exact mem_pool_of_detail db req d hd hs
    | people =>
      simp only [handle, peopleHandler, bodyStrings, List.mem_flatMap, List.mem_map] at hs
      rcases hs with ⟨pr, ⟨d, hd, hpr⟩, hspr⟩
      refine mem_pool_of_detail db req d hd ?_
      rw [← hpr] at hspr
      simp only [detailStrings, List.mem_append]
      simp only [List.mem_append] at hspr
      tauto
    | userdetailsByName fn =>
      simp only [handle] at hs
      rcases userdetailsByName_body_cases db fn with h | ⟨d, hd, h⟩ <;> rw [h] at hs
      · exact mem_pool_of_const db req (mem_constStrings_of_mem s _ (by decide) hs)
      · exact mem_pool_of_detail db req d hd hs
    | makeproj =>
      simp only [handle] at hs
      rcases makeproj_body_cases db req with h | ⟨idv, h⟩ <;> rw [h] at hs
      · exact mem_pool_of_const db req (mem_constStrings_of_mem s _ (by decide) hs)
      · refine mem_pool_of_const db req (mem_constStrings_of_mem s _ ?_ hs)
        intro x hx
        simp only [bodyStrings, List.mem_singleton] at hx
        simp [constStrings, hx]
    | clublisting =>
      simp only [handle, clublistingHandler] at hs
      exact mem_pool_of_const db req (mem_constStrings_of_mem s _ (by decide) hs)
    | userpagePost =>
      simp only [handle] at hs
      rcases userpagePost_body_strings db req.body s hs with h | ⟨d, hd, h⟩
      · exact mem_pool_of_req db req h
      · exact mem_pool_of_detail db req d hd h
    | health =>
      simp only [handle, healthHandler] at hs
      exact mem_pool_of_const db req (mem_constStrings_of_mem s _ (by decide) hs)
    | catchAll =>
      simp only [handle, catchAllHandler] at hs
      exact mem_pool_of_const db req (mem_constStrings_of_mem s _ (by decide) hs)
  exact ⟨hpool, fun hdisj hsec => hdisj s hsec hpool⟩

theorem response_never_contains_secret_material_witness :
    "Alice L" ∈ bodyStrings (handle .people sampleDB {}).2.body ∧
    (∀ t ∈ secretStrings sampleDB, t ∉ nonSecretPool sampleDB {}) ∧
    "Alice L" ∈ nonSecretPool sampleDB {} ∧
    "Alice L" ∉ secretStrings sampleDB := by
  have h := response_never_contains_secret_material .people sampleDB {} "Alice L"
    (by decide)
  exact ⟨by decide, by decide, h.1, h.2 (by decide)⟩

end VConnect
